import Mathlib

/-!
Verification of the Telegram userbot fetcher against its specification.

The Lean definitions below are shallow embeddings of the Python source:

* `handlers.py` — dedup ledgers (`normalize_link`, `save_processed_series`,
  the success branch of `process_index_channel`), the per-link skip guard,
  the file-bot message handler (`handle_file_bot_message`), the bot
  interaction traces (`click_season_button`, `handle_bot_url`) and the
  file-collection poll loop (`wait_and_collect_files`).
* `utils.py` — `handle_flood_wait`.
* `session_manager.py` — `has_alternate_sessions`.
* `bot_controller.py` — the `/scan` admission guard and the auto-fetch loop
  of `_run_scan_task`.

State is passed explicitly; time is discrete with one unit per poll tick;
fallible operations take explicit success flags.
-/

namespace Fetcher

/-- Python `str.strip()`: drop leading and trailing whitespace.
(Executed on the character list so that closed instances evaluate.) -/
def pyStrip (s : String) : String :=
  String.mk (((s.toList.dropWhile Char.isWhitespace).reverse.dropWhile
    Char.isWhitespace).reverse)

/-- Python `s.endswith(c)` for a single character. -/
def strEndsWithChar (s : String) (c : Char) : Bool :=
  s.toList.getLast? == some c

/-- Python `s[:-1]`. -/
def strDropLastChar (s : String) : String :=
  String.mk s.toList.dropLast

/-- Python `sub in s` (substring containment) on character lists. -/
def containsSub (sub : List Char) : List Char → Bool
  | [] => sub.isEmpty
  | c :: rest => sub.isPrefixOf (c :: rest) || containsSub sub rest

/-- Python `sub in s` (substring containment) on strings. -/
def strContains (s sub : String) : Bool :=
  containsSub sub.toList s.toList

/-- Split at every character satisfying `p`, keeping empty pieces
(helper for Python `str.split()`). -/
def splitEveryAux (p : Char → Bool) (acc : List Char) : List Char → List (List Char)
  | [] => [acc.reverse]
  | c :: rest =>
    if p c then acc.reverse :: splitEveryAux p [] rest
    else splitEveryAux p (c :: acc) rest

/-- Python `str.split()` with no argument: split on whitespace,
discarding empty pieces. -/
def pySplitWs (s : String) : List String :=
  ((splitEveryAux (fun c => c.isWhitespace) [] s.toList).map String.mk).filter
    (fun w => w ≠ "")

/-- Python `s.split(sep)` on character lists, for nonempty `sep`:
non-overlapping left-to-right splitting at each occurrence of `sep`.
Structural recursion on a fuel that starts at the list length (each
step consumes at least one character and one unit of fuel, so the
zero-fuel fallback with a nonempty list is unreachable). -/
def splitOnSubAux (sep : List Char) : Nat → List Char → List Char → List (List Char)
  | _, acc, [] => [acc.reverse]
  | 0, acc, l => [acc.reverse ++ l]
  | fuel + 1, acc, c :: rest =>
    if sep ≠ [] && sep.isPrefixOf (c :: rest) then
      acc.reverse :: splitOnSubAux sep fuel [] (rest.drop (sep.length - 1))
    else splitOnSubAux sep fuel (c :: acc) rest

/-- Python `s.split(sep)` on strings (`sep` nonempty at every use
site; an empty `sep` is mapped to the identity split). -/
def pySplitOnStr (s sep : String) : List String :=
  if sep = "" then [s]
  else (splitOnSubAux sep.toList s.toList.length [] s.toList).map String.mk

/-- The local `normalize` helper in `handle_file_bot_message`
(handlers.py): lowercase then delete apostrophes, periods, spaces,
commas, hyphens and underscores (a chain of `str.replace(c, "")`). -/
def pyNormalize (text : String) : String :=
  String.mk ((text.toList.map Char.toLower).filter (fun c =>
    !(c == Char.ofNat 39 || c == '.' || c == ' ' || c == ',' ||
      c == '-' || c == '_')))

/-! ## Completed-items ledger (`handlers.py`) -/

/-- `normalize_link` (handlers.py): empty stays empty, otherwise strip
surrounding whitespace and one trailing slash. -/
def normalize_link (link : String) : String :=
  if link = "" then ""
  else
    let l := pyStrip link
    if strEndsWithChar l '/' then strDropLastChar l else l

/-- The state touched by series dedup: the in-memory `processed_series`
set (modelled as a list with membership) and the lines appended to
`processed_series.txt`. -/
structure LedgerState where
  processedSeries : List String
  ledgerFile : List String
  deriving Repr, DecidableEq

/-- `save_processed_series` (handlers.py): append the normalized link to
the ledger file only when it is not in the in-memory set. -/
def save_processed_series (s : LedgerState) (seriesLink : String) : LedgerState :=
  let normLink := normalize_link seriesLink
  if normLink ∈ s.processedSeries then s
  else { s with ledgerFile := s.ledgerFile ++ [normLink] }

/-- The success branch of `process_index_channel` (handlers.py lines
293-295): `processed_series.add(series_link)` with the RAW link, then
`save_processed_series(series_link)`. -/
def markSeriesDone (s : LedgerState) (seriesLink : String) : LedgerState :=
  let s1 := { s with processedSeries := s.processedSeries ++ [seriesLink] }
  save_processed_series s1 seriesLink

/-- The per-link body of `process_index_channel` (handlers.py lines
279-296). `work` abstracts `process_series_channel` together with every
resolution/click it performs; it returns the updated ledger state, a
success flag, and the counts of channel-resolution and click calls it
made. The guard skips the link when its normalized form is already in
the in-memory set. Returns (state, resolutionCalls, clickCalls). -/
def processLink (work : LedgerState → LedgerState × Bool × Nat × Nat)
    (s : LedgerState) (seriesLink : String) : LedgerState × Nat × Nat :=
  if normalize_link seriesLink ∈ s.processedSeries then (s, 0, 0)
  else
    let (s1, success, resolves, clicks) := work s
    if success then (markSeriesDone s1 seriesLink, resolves, clicks)
    else (s1, resolves, clicks)

/-! ## Rate-limit guard (`utils.py` / `session_manager.py`) -/

/-- The sessions list held by `SessionManager` (session_manager.py). -/
structure SessionManagerM where
  sessions : List String
  deriving Repr, DecidableEq

/-- `SessionManager.has_alternate_sessions`: more than one session. -/
def has_alternate_sessions (sm : SessionManagerM) : Bool :=
  sm.sessions.length > 1

/-- Outcome of `handle_flood_wait`: either sleep for a number of seconds
and return (the caller retries), or raise `LongFloodWaitException`
carrying the wait time and the threshold. -/
inductive FloodOutcome where
  | wait (seconds : Nat)
  | failover (waitTime threshold : Nat)
  deriving Repr, DecidableEq

/-- `handle_flood_wait` (utils.py): raise `LongFloodWaitException` iff
auto-switching is on, a session manager was passed, it has alternate
sessions, and the wait exceeds the threshold; otherwise sleep
`wait_time + 5` (the fixed 5-second buffer) and return. -/
def handle_flood_wait (autoSwitchSession : Bool) (floodWaitThreshold : Nat)
    (sessionManager : Option SessionManagerM) (waitTime : Nat) : FloodOutcome :=
  if autoSwitchSession
      && (match sessionManager with
          | some sm => has_alternate_sessions sm
          | none => false)
      && decide (waitTime > floodWaitThreshold) then
    .failover waitTime floodWaitThreshold
  else
    .wait (waitTime + 5)

/-! ## File collector (`handlers.py`: `handle_file_bot_message` and the
forwarded-files ledger) -/

/-- Add to a Python `set` modelled as a duplicate-free list. -/
def setAdd (l : List String) (x : String) : List String :=
  if x ∈ l then l else l ++ [x]

/-- The forwarded-files part of `load_processed_data` (handlers.py):
`for line in f: if line.strip(): forwarded_files.add(line.strip())`,
folded over the raw lines of `processed_files.txt` starting from the
current in-memory set. -/
def load_forwarded_files (init : List String) (lines : List String) : List String :=
  lines.foldl
    (fun acc line => if pyStrip line ≠ "" then setAdd acc (pyStrip line) else acc)
    init

/-- Kind of forwardable media; `is_media_message` (utils.py) accepts
exactly video, document and audio messages. -/
inductive MediaKind where
  | video
  | document
  | audio
  deriving Repr, DecidableEq

/-- Media payload of a message. `sizeStr` stands for the already
"%.2f"-formatted file size (digits and a period only). `fileName` is
`None` when the file carries no name (Python then substitutes ""). -/
structure MediaContent where
  kind : MediaKind
  fileUniqueId : String
  fileName : Option String
  sizeStr : String
  deriving Repr, DecidableEq

/-- A message observed in the file-bot chat. `timestamp` is the Python
`current_timestamp` (edit date when present, else date).
`sendAllClicked` is true when the message has a send-all button and
clicking it succeeded; `hasNextButton` when a next-page button is
found. -/
structure FileMsg where
  msgId : Nat
  timestamp : Nat
  media : Option MediaContent
  hasReplyMarkup : Bool
  sendAllClicked : Bool
  hasNextButton : Bool
  deriving Repr, DecidableEq

/-- The collector's shared mutable state: `collected_media` (message id
to last seen timestamp), the `forwarded_files` set, the lines appended
to `processed_files.txt`, `state.files_received` and
`state.current_series`. -/
structure CollectorState where
  collectedMedia : List (Nat × Nat)
  forwardedFiles : List String
  filesLedger : List String
  filesReceived : Nat
  currentSeries : String
  deriving Repr, DecidableEq

/-- Python dict assignment `collected_media[id] = ts`. -/
def dictInsert (l : List (Nat × Nat)) (k v : Nat) : List (Nat × Nat) :=
  if l.any (fun p => p.1 == k) then
    l.map (fun p => if p.1 == k then (k, v) else p)
  else l ++ [(k, v)]

/-- `get_media_info` (utils.py): "Kind: name (size MB)", with "unnamed"
substituted for a missing file name. -/
def get_media_info (m : MediaContent) : String :=
  (match m.kind with
   | .video => "Video"
   | .document => "Document"
   | .audio => "Audio")
  ++ ": " ++ (m.fileName.getD "unnamed") ++ " (" ++ m.sizeStr ++ " MB)"

/-- Line 838 of handlers.py: re-extract the file name from the media
description — `media_info.split(": ")[1].split(" (")[0]` when ": "
occurs, else "". -/
def parseFilenameFromInfo (mediaInfo : String) : String :=
  if strContains mediaInfo ": " then
    (pySplitOnStr ((pySplitOnStr mediaInfo ": ").getD 1 "") " (").getD 0 ""
  else ""

/-- Lines 842-864 of handlers.py: the unrelated-file filter. Returns
true when the file may be forwarded: the normalized series name is a
substring of the normalized file name, or the series name has no word
of length ≥ 4, or some such word's normalization occurs in the
normalized file name. -/
def unrelatedFileCheck (currentSeries filename : String) : Bool :=
  let seriesNormalized := pyNormalize currentSeries
  let filenameNormalized := pyNormalize filename
  if strContains filenameNormalized seriesNormalized then true
  else
    let seriesWords := (pySplitWs currentSeries).filter (fun w => w.length ≥ 4)
    if seriesWords.isEmpty then true
    else (seriesWords.map pyNormalize).any (fun w => strContains filenameNormalized w)

/-- Result of one `handle_file_bot_message` call: the new state, the
Python return value, and whether `forward_media` was invoked. -/
structure HandleResult where
  state : CollectorState
  returned : Bool
  forwardAttempted : Bool
  deriving Repr, DecidableEq

/-- The trailing button phase of `handle_file_bot_message` (lines
896-915): a clicked send-all button or a found next button makes the
call count as activity regardless of media. -/
def buttonPhase (s : CollectorState) (msg : FileMsg) (foundMedia attempted : Bool) :
    HandleResult :=
  if msg.hasReplyMarkup then
    if msg.sendAllClicked then ⟨s, true, attempted⟩
    else if msg.hasNextButton then ⟨s, true, attempted⟩
    else ⟨s, foundMedia, attempted⟩
  else ⟨s, foundMedia, attempted⟩

/-- `handle_file_bot_message` (handlers.py lines 780-915). `forwardOk`
is the result of the `forward_media` call when one is made. Early
returns: stale timestamp, duplicate fingerprint, unrelated file. On a
successful forward both fingerprint keys are recorded and the file name
is persisted; note that when a current series is set, Python rebinds
`filename` to the name parsed back out of `media_info`, and that rebound
name is what gets recorded. -/
def handle_file_bot_message (s : CollectorState) (msg : FileMsg) (forwardOk : Bool) :
    HandleResult :=
  if (match s.collectedMedia.lookup msg.msgId with
      | some lastEdit => decide (msg.timestamp ≤ lastEdit)
      | none => false) then
    ⟨s, false, false⟩
  else
    let s0 := { s with collectedMedia := dictInsert s.collectedMedia msg.msgId msg.timestamp }
    match msg.media with
    | none => buttonPhase s0 msg false false
    | some m =>
      let mediaInfo := get_media_info m
      let fileUniqueId := m.fileUniqueId
      let filename0 := m.fileName.getD ""
      let isDuplicate :=
        (fileUniqueId ≠ "" && decide (fileUniqueId ∈ s0.forwardedFiles))
        || (filename0 ≠ "" && decide (filename0 ∈ s0.forwardedFiles))
      if isDuplicate then ⟨s0, false, false⟩
      else
        let filename := if s0.currentSeries ≠ "" then parseFilenameFromInfo mediaInfo
                        else filename0
        if s0.currentSeries ≠ "" && !unrelatedFileCheck s0.currentSeries filename then
          ⟨s0, false, false⟩
        else if forwardOk then
          let fw1 := if fileUniqueId ≠ "" then setAdd s0.forwardedFiles fileUniqueId
                     else s0.forwardedFiles
          let fw2 := if filename ≠ "" then setAdd fw1 filename else fw1
          let ledger := if filename ≠ "" then s0.filesLedger ++ [filename]
                        else s0.filesLedger
          buttonPhase { s0 with forwardedFiles := fw2, filesLedger := ledger,
                                filesReceived := s0.filesReceived + 1 }
            msg true true
        else buttonPhase s0 msg false true

/-! ## Bot interaction traces (`handlers.py`: `click_season_button`,
`handle_bot_url`) -/

/-- Observable events of the bot-interaction handshake. -/
inductive BotEvent where
  | setWaiting (b : Bool)
  | sendStart (botUsername : String) (text : String)
  | clickCallback
  | settleSleep
  | collectFiles
  deriving Repr, DecidableEq

/-- `handle_bot_url` (handlers.py lines 656-697) as its event trace:
parse the bot username and start parameter out of the URL, send the
start message, sleep `BOT_START_DELAY`, only then set
`waiting_for_files`, collect, clear the flag. A URL without "t.me/"
produces no events (immediate `return False`). -/
def handle_bot_url_events (url : String) : List BotEvent :=
  if !strContains url "t.me/" then []
  else
    let parts := (pySplitOnStr url "t.me/").getD 1 ""
    let botUsername :=
      (pySplitOnStr ((pySplitOnStr parts "?").getD 0 "") "/").getD 0 ""
    let startParam :=
      if strContains url "start=" then
        (pySplitOnStr ((pySplitOnStr url "start=").getD 1 "") "&").getD 0 ""
      else ""
    let text := if startParam ≠ "" then "/start " ++ startParam else "/start"
    [ .sendStart botUsername text, .settleSleep, .setWaiting true,
      .collectFiles, .setWaiting false ]

/-- A season button: `url` and `callback_data` as in pyrogram. -/
structure SeasonButton where
  text : String
  url : Option String
  callbackData : Option String
  deriving Repr, DecidableEq

/-- `click_season_button` (handlers.py lines 606-653) as its event
trace. URL buttons delegate to `handle_bot_url`; callback buttons set
`waiting_for_files` BEFORE the click, then click, sleep, collect and
clear the flag. A button with neither does nothing. -/
def click_season_button_events (b : SeasonButton) : List BotEvent :=
  match b.url with
  | some u => handle_bot_url_events u
  | none =>
    match b.callbackData with
    | some _ =>
      [ .setWaiting true, .clickCallback, .settleSleep,
        .collectFiles, .setWaiting false ]
    | none => []

/-- Value of `state.waiting_for_files` just before event `k` of a
trace, starting from `init`. -/
def waitingFlagBefore (init : Bool) (events : List BotEvent) (k : Nat) : Bool :=
  (events.take k).foldl
    (fun flag e => match e with | .setWaiting b => b | _ => flag) init

/-- Whether an event is the sending of a start message to a bot. -/
def BotEvent.isSendStart : BotEvent → Bool
  | .sendStart _ _ => true
  | _ => false

/-! ## File-collection poll loop (`handlers.py`: `wait_and_collect_files`)

Time is discrete: one unit per poll tick (the loop's fixed
`asyncio.sleep(1)`), message processing within a tick is instantaneous,
and the loop starts at time 0 (= `start_time`). `stop t` is the value
of `state.stop_requested` observed at time `t`; `activity t` tells
whether some `handle_file_bot_message` call returned true during the
tick at time `t` (which sets `last_activity`); `filesAt t` is the
number of files forwarded during that tick (each increments
`state.files_received`). -/

/-- Loop-local state of `wait_and_collect_files`: current time,
`last_activity`, and the run-wide `state.files_received` counter. -/
structure PollState where
  t : Nat
  lastActivity : Nat
  filesReceived : Nat
  deriving Repr, DecidableEq

/-- How the poll loop exited. -/
inductive PollExit where
  | timedOut
  | stopped
  deriving Repr, DecidableEq

/-- The `while True` loop of `wait_and_collect_files`: break on
inactivity exceeding `timeout`, break on `stop_requested`, otherwise
process the tick (activity refreshes `last_activity`, forwarded files
bump the counter) and sleep one tick. `fuel` bounds the number of
iterations examined; `none` means the loop was still running after
`fuel` iterations. -/
def pollRun (timeout : Nat) (stop activity : Nat → Bool) (filesAt : Nat → Nat) :
    Nat → PollState → Option (PollState × PollExit)
  | 0, _ => none
  | fuel + 1, s =>
    if s.t - s.lastActivity > timeout then some (s, .timedOut)
    else if stop s.t then some (s, .stopped)
    else
      pollRun timeout stop activity filesAt fuel
        { t := s.t + 1,
          lastActivity := if activity s.t then s.t else s.lastActivity,
          filesReceived := s.filesReceived + filesAt s.t }

/-- Entry of `wait_and_collect_files` (handlers.py lines 707-777):
`start_time = now`, `state.files_received = 0`, `last_activity =
start_time`, then the loop. `prevFilesReceived` is whatever the
run-wide counter held before the call; line 724 overwrites it with 0. -/
def wait_and_collect_files (timeout : Nat) (stop activity : Nat → Bool)
    (filesAt : Nat → Nat) (fuel : Nat) (prevFilesReceived : Nat) :
    Option (PollState × PollExit) :=
  let _ := prevFilesReceived
  pollRun timeout stop activity filesAt fuel
    { t := 0, lastActivity := 0, filesReceived := 0 }

/-! ## Run trace and scan admission (`bot_controller.py`, `handlers.py`)

`state.is_processing` is assigned in exactly two places of a run:
`process_series_channel` sets it to true on entry (line 460) and its
`finally` clause sets it back to false (line 502). Neither
`scan_command` nor `_run_scan_task` nor `process_index_channel` sets
it. The trace below lays out the events of one run of
`process_index_channel` over `n` fresh series, each processed
successfully. -/

/-- Observable events of one orchestrator run. -/
inductive RunEvent where
  | setProcessing (b : Bool)
  | resolveChannel (item : Nat)
  | clickButtons (item : Nat)
  | collectFiles (item : Nat)
  | saveSeries (item : Nat)
  | interItemSleep (item : Nat)
  deriving Repr, DecidableEq

/-- Events of processing one series: `process_series_channel` sets the
flag, resolves the channel, clicks and collects, and clears the flag in
its `finally`; back in `process_index_channel` the series is saved and
the fixed 3-second inter-item delay runs. -/
def seriesEvents (item : Nat) : List RunEvent :=
  [ .setProcessing true, .resolveChannel item, .clickButtons item,
    .collectFiles item, .setProcessing false, .saveSeries item,
    .interItemSleep item ]

/-- Trace of a run over `n` fresh series. -/
def runTrace (n : Nat) : List RunEvent :=
  (List.range n).flatMap seriesEvents

/-- `state.is_processing` just before event `k` of a run trace; it is
false when the run starts (`_force_stop` / initial state). -/
def processingFlagBefore (trace : List RunEvent) (k : Nat) : Bool :=
  (trace.take k).foldl
    (fun flag e => match e with | .setProcessing b => b | _ => flag) false

/-- The admission guard of `scan_command` (bot_controller.py lines
49-51): a `/scan` is accepted iff `state.is_processing` is currently
false. -/
def scanCommandAccepts (isProcessing : Bool) : Bool :=
  !isProcessing

/-- Whether an event is per-item work (resolution, clicking,
collecting) in the sense of the mutual-exclusion claim. -/
def isPerItemWork : RunEvent → Bool
  | .resolveChannel _ => true
  | .clickButtons _ => true
  | .collectFiles _ => true
  | _ => false

/-! ## Auto-fetch loop (`bot_controller.py`: `_run_scan_task`) -/

/-- The auto-fetch loop of `_run_scan_task` (bot_controller.py lines
156-193), with no stop requested. `nextAvail p` tells whether
`run_full_scan` for the post processed when `posts_processed = p`
returns a next-post link (which it only does when auto-fetch is
enabled). Returns the final `posts_processed`. -/
def autoFetchLoop (autoFetch : Bool) (maxPosts : Nat) (nextAvail : Nat → Bool)
    (hasLink : Bool) (postsProcessed : Nat) : Nat :=
  if !(hasLink || postsProcessed == 0) then postsProcessed
  else if h : postsProcessed ≥ maxPosts then postsProcessed
  else
    let nextLink := autoFetch && nextAvail postsProcessed
    if nextLink then autoFetchLoop autoFetch maxPosts nextAvail true (postsProcessed + 1)
    else postsProcessed + 1
  termination_by maxPosts - postsProcessed
  decreasing_by omega

/-- `_run_scan_task` entered with a start link: `current_link =
start_link`, `posts_processed = 0`. -/
def runScanTaskPosts (autoFetch : Bool) (maxPosts : Nat) (nextAvail : Nat → Bool) : Nat :=
  autoFetchLoop autoFetch maxPosts nextAvail true 0

/-! ## Theorems -/

/-- C1: the claim says a successfully processed catalog item is marked
done AND persisted to the completed-items ledger, idempotently. The
code violates this: for an already-normalized link the raw in-memory
add in `process_index_channel` happens before `save_processed_series`,
whose membership guard then suppresses the append, so nothing is ever
written to disk; and for a link that differs from its normalization
(trailing slash) the same normalized link is appended twice when the
link is processed twice in one run. -/
theorem c1_done_item_not_persisted :
    (markSeriesDone ⟨[], []⟩ "https://t.me/SeriesA").processedSeries
        = ["https://t.me/SeriesA"]
    ∧ (markSeriesDone ⟨[], []⟩ "https://t.me/SeriesA").ledgerFile = []
    ∧ (markSeriesDone (markSeriesDone ⟨[], []⟩ "https://t.me/X/") "https://t.me/X/").ledgerFile
        = ["https://t.me/X", "https://t.me/X"] := by
  refine ⟨rfl, rfl, rfl⟩

/-- C2: the claim says the in-progress flag is an exclusive gate for
the whole run. In the code `state.is_processing` is set only inside
`process_series_channel`, so during the inter-item delay of a two-item
run (trace position 6) the flag is false and `scan_command` accepts a
new scan, even though per-item work of the same run (position 8, with
the flag set again) is still ahead. -/
theorem c2_scan_flag_not_run_exclusive :
    (runTrace 2).getD 6 (.setProcessing false) = .interItemSleep 0
    ∧ processingFlagBefore (runTrace 2) 6 = false
    ∧ scanCommandAccepts (processingFlagBefore (runTrace 2) 6) = true
    ∧ (runTrace 2).getD 8 (.setProcessing false) = .resolveChannel 1
    ∧ isPerItemWork ((runTrace 2).getD 8 (.setProcessing false)) = true
    ∧ processingFlagBefore (runTrace 2) 8 = true := by
  refine ⟨rfl, rfl, rfl, rfl, rfl, rfl⟩

/-- C3: `handle_flood_wait` sleeps exactly `waitTime + 5` and returns
whenever auto-failover is off, or no alternate credential exists, or
the wait is at or below the threshold; it raises the long-flood-wait
exception without sleeping exactly when auto-failover is on, an
alternate credential exists and the wait exceeds the threshold. -/
theorem c3_flood_wait_routing (autoSwitch : Bool) (threshold : Nat)
    (sm : Option SessionManagerM) (w : Nat) :
    ((autoSwitch = false ∨ sm = none
      ∨ (∃ m, sm = some m ∧ has_alternate_sessions m = false)
      ∨ w ≤ threshold) →
      handle_flood_wait autoSwitch threshold sm w = .wait (w + 5))
    ∧ ((autoSwitch = true
        ∧ (∃ m, sm = some m ∧ has_alternate_sessions m = true)
        ∧ w > threshold) →
      handle_flood_wait autoSwitch threshold sm w = .failover w threshold) := by
  constructor
  · intro h
    unfold handle_flood_wait
    split
    · next hcond =>
      exfalso
      simp only [Bool.and_eq_true, decide_eq_true_eq] at hcond
      obtain ⟨⟨ha, hsm⟩, hw⟩ := hcond
      rcases h with h | h | ⟨m, rfl, hm⟩ | h
      · exact absurd ha (by simp [h])
      · subst h; simp at hsm
      · simp [hm] at hsm
      · omega
    · rfl
  · rintro ⟨ha, ⟨m, rfl, hm⟩, hw⟩
    unfold handle_flood_wait
    split
    · rfl
    · next hcond =>
      exfalso
      apply hcond
      simp [ha, hm, hw]

/-- Witness for C3 at concrete inputs: threshold 3600, wait 4000. -/
theorem c3_flood_wait_routing_witness :
    handle_flood_wait false 3600 (some ⟨["a", "b"]⟩) 4000 = .wait 4005
    ∧ handle_flood_wait true 3600 (some ⟨["a"]⟩) 4000 = .wait 4005
    ∧ handle_flood_wait true 3600 (some ⟨["a", "b"]⟩) 3600 = .wait 3605
    ∧ handle_flood_wait true 3600 (some ⟨["a", "b"]⟩) 4000 = .failover 4000 3600 := by
  refine ⟨?_, ?_, ?_, ?_⟩
  · exact (c3_flood_wait_routing false 3600 (some ⟨["a", "b"]⟩) 4000).1 (Or.inl rfl)
  · exact (c3_flood_wait_routing true 3600 (some ⟨["a"]⟩) 4000).1
      (Or.inr (Or.inr (Or.inl ⟨⟨["a"]⟩, rfl, by decide⟩)))
  · exact (c3_flood_wait_routing true 3600 (some ⟨["a", "b"]⟩) 3600).1
      (Or.inr (Or.inr (Or.inr (by omega))))
  · exact (c3_flood_wait_routing true 3600 (some ⟨["a", "b"]⟩) 4000).2
      ⟨rfl, ⟨⟨["a", "b"]⟩, rfl, by decide⟩, by omega⟩

/-- C5: a catalog item whose normalized link is already in the
completed-items set is skipped before any downstream work: zero
channel-resolution calls, zero click calls, state (including the
on-disk ledger) unchanged — for every possible behavior of the
downstream processing. -/
theorem c5_already_done_item_skipped
    (work : LedgerState → LedgerState × Bool × Nat × Nat)
    (s : LedgerState) (link : String)
    (h : normalize_link link ∈ s.processedSeries) :
    processLink work s link = (s, 0, 0) := by
  unfold processLink
  rw [if_pos h]

/-- Witness for C5: the ledger already contains the normalized link. -/
theorem c5_already_done_item_skipped_witness :
    processLink (fun s => (s, true, 1, 1))
      ⟨["https://t.me/SeriesA"], ["https://t.me/SeriesA"]⟩
      "https://t.me/SeriesA"
      = (⟨["https://t.me/SeriesA"], ["https://t.me/SeriesA"]⟩, 0, 0) :=
  c5_already_done_item_skipped (fun s => (s, true, 1, 1))
    ⟨["https://t.me/SeriesA"], ["https://t.me/SeriesA"]⟩
    "https://t.me/SeriesA" (by decide)

/-- C4: a media message either of whose fingerprint keys (file unique
id, file name) is already in the forwarded-files set — including
entries reloaded from disk — is not forwarded and leaves the
files-received counter unchanged. The hypothesis that the set does not
contain the empty string holds for every set built by
`load_forwarded_files` and by the handler itself, which only insert
nonempty strings. -/
theorem c4_duplicate_fingerprint_not_forwarded
    (s : CollectorState) (msg : FileMsg) (m : MediaContent) (forwardOk : Bool)
    (hmedia : msg.media = some m)
    (hempty : "" ∉ s.forwardedFiles)
    (hdup : m.fileUniqueId ∈ s.forwardedFiles
      ∨ m.fileName.getD "" ∈ s.forwardedFiles) :
    (handle_file_bot_message s msg forwardOk).forwardAttempted = false
    ∧ (handle_file_bot_message s msg forwardOk).state.filesReceived
        = s.filesReceived := by
  simp only [handle_file_bot_message]
  split
  · exact ⟨rfl, rfl⟩
  · simp only [hmedia]
    split
    · exact ⟨rfl, rfl⟩
    · next hq =>
      exfalso
      simp only [Bool.or_eq_true, Bool.and_eq_true, decide_eq_true_eq, ne_eq,
        not_or, not_and] at hq
      rcases hdup with hf | hn
      · exact absurd hf (hq.1 (fun he => hempty (he ▸ hf)))
      · exact absurd hn (hq.2 (fun he => hempty (he ▸ hn)))

/-- Witness for C4 on the spec scenario: the ledger reloaded from disk
contains `Show.S01E01.mkv`; a media message with a different unique id
but that file name is not forwarded and the counter stays 0. -/
theorem c4_duplicate_fingerprint_not_forwarded_witness :
    (handle_file_bot_message
        ⟨[], load_forwarded_files [] ["Show.S01E01.mkv"], [], 0, ""⟩
        ⟨1, 100, some ⟨.video, "uid9", some "Show.S01E01.mkv", "700.00"⟩,
          false, false, false⟩
        true).forwardAttempted = false
    ∧ (handle_file_bot_message
        ⟨[], load_forwarded_files [] ["Show.S01E01.mkv"], [], 0, ""⟩
        ⟨1, 100, some ⟨.video, "uid9", some "Show.S01E01.mkv", "700.00"⟩,
          false, false, false⟩
        true).state.filesReceived = 0 :=
  c4_duplicate_fingerprint_not_forwarded
    ⟨[], load_forwarded_files [] ["Show.S01E01.mkv"], [], 0, ""⟩
    ⟨1, 100, some ⟨.video, "uid9", some "Show.S01E01.mkv", "700.00"⟩,
      false, false, false⟩
    ⟨.video, "uid9", some "Show.S01E01.mkv", "700.00"⟩ true
    rfl (by decide) (Or.inr (by decide))

/-- C6 counterexample: in the deep-link path the start message is sent
at trace position 0 while `waiting_for_files` is still false; the flag
is only set at position 2, after the send and the bot-start delay. So
the claim that the flag is set before the click/send in BOTH paths is
false. -/
theorem c6_counterexample_deep_link_sends_before_flag :
    (click_season_button_events
        ⟨"SEASON 1", some "https://t.me/FilesBot?start=abc123", none⟩).getD 0
        (.setWaiting false)
      = .sendStart "FilesBot" "/start abc123"
    ∧ waitingFlagBefore false
        (click_season_button_events
          ⟨"SEASON 1", some "https://t.me/FilesBot?start=abc123", none⟩) 0 = false
    ∧ (click_season_button_events
        ⟨"SEASON 1", some "https://t.me/FilesBot?start=abc123", none⟩).getD 2
        (.setWaiting false)
      = .setWaiting true := by
  refine ⟨rfl, rfl, rfl⟩

/-- C6 amended: in the callback path the waiting-for-delivery flag is
set to true before the click is issued; in the deep-link path the
start message is sent first, with the flag still false, and the flag
is set only before the collection phase. -/
theorem c6_amended_flag_ordering :
    (∀ text cb : String,
      (click_season_button_events ⟨text, none, some cb⟩).getD 1 (.setWaiting false)
          = .clickCallback
      ∧ waitingFlagBefore false (click_season_button_events ⟨text, none, some cb⟩) 1
          = true)
    ∧ (∀ url : String, strContains url "t.me/" = true →
      ((handle_bot_url_events url).getD 0 (.setWaiting false)).isSendStart = true
      ∧ waitingFlagBefore false (handle_bot_url_events url) 0 = false
      ∧ (handle_bot_url_events url).getD 3 (.setWaiting false) = .collectFiles
      ∧ waitingFlagBefore false (handle_bot_url_events url) 3 = true) := by
  constructor
  · intro text cb
    exact ⟨rfl, rfl⟩
  · intro url h
    simp only [handle_bot_url_events, h, Bool.not_true, Bool.false_eq_true,
      if_false]
    exact ⟨rfl, rfl, rfl, rfl⟩

/-- Witness for C6 amended at a concrete callback button and a
concrete deep-link URL. -/
theorem c6_amended_flag_ordering_witness :
    ((click_season_button_events ⟨"SEASON 1", none, some "cb1"⟩).getD 1
          (.setWaiting false) = .clickCallback
      ∧ waitingFlagBefore false (click_season_button_events ⟨"SEASON 1", none, some "cb1"⟩)
          1 = true)
    ∧ (((handle_bot_url_events "https://t.me/FilesBot?start=abc123").getD 0
            (.setWaiting false)).isSendStart = true
        ∧ waitingFlagBefore false
            (handle_bot_url_events "https://t.me/FilesBot?start=abc123") 0 = false
        ∧ (handle_bot_url_events "https://t.me/FilesBot?start=abc123").getD 3
            (.setWaiting false) = .collectFiles
        ∧ waitingFlagBefore false
            (handle_bot_url_events "https://t.me/FilesBot?start=abc123") 3 = true) :=
  ⟨c6_amended_flag_ordering.1 "SEASON 1" "cb1",
   c6_amended_flag_ordering.2 "https://t.me/FilesBot?start=abc123" (by decide)⟩

/-- C7 counterexample: with current item name "Zoo" (no word of length
≥ 4) and file name "randomfile.mkv", the normalized item name is not a
substring of the normalized file name and — vacuously — no significant
word of the item name appears in it, yet the code forwards the file
and increments the counter: the word-level fallback is skipped
entirely when the item name has no significant word. -/
theorem c7_counterexample_no_significant_words :
    strContains (pyNormalize "randomfile.mkv") (pyNormalize "Zoo") = false
    ∧ (pySplitWs "Zoo").filter (fun w => w.length ≥ 4) = []
    ∧ (handle_file_bot_message ⟨[], [], [], 0, "Zoo"⟩
        ⟨1, 100, some ⟨.video, "u1", some "randomfile.mkv", "12.00"⟩,
          false, false, false⟩
        true).forwardAttempted = true
    ∧ (handle_file_bot_message ⟨[], [], [], 0, "Zoo"⟩
        ⟨1, 100, some ⟨.video, "u1", some "randomfile.mkv", "12.00"⟩,
          false, false, false⟩
        true).state.filesReceived = 1 := by
  refine ⟨rfl, rfl, rfl, rfl⟩

/-- C7 amended: when a current item name is set and it has at least one
significant word (length ≥ 4), a media message whose normalized file
name (as re-extracted from the media description) neither contains the
normalized item name as a substring nor contains the normalization of
any significant word is not forwarded and leaves the counter
unchanged. -/
theorem c7_unrelated_file_not_forwarded
    (s : CollectorState) (msg : FileMsg) (m : MediaContent) (forwardOk : Bool)
    (hmedia : msg.media = some m)
    (hseries : s.currentSeries ≠ "")
    (hsub : strContains (pyNormalize (parseFilenameFromInfo (get_media_info m)))
      (pyNormalize s.currentSeries) = false)
    (hwords : (pySplitWs s.currentSeries).filter (fun w => w.length ≥ 4) ≠ [])
    (hnone : ∀ w ∈ (pySplitWs s.currentSeries).filter (fun w => w.length ≥ 4),
      strContains (pyNormalize (parseFilenameFromInfo (get_media_info m)))
        (pyNormalize w) = false) :
    (handle_file_bot_message s msg forwardOk).forwardAttempted = false
    ∧ (handle_file_bot_message s msg forwardOk).state.filesReceived
        = s.filesReceived := by
  have hcheck : unrelatedFileCheck s.currentSeries
      (parseFilenameFromInfo (get_media_info m)) = false := by
    simp only [unrelatedFileCheck]
    rw [hsub, if_neg Bool.false_ne_true]
    rcases hw : (pySplitWs s.currentSeries).filter (fun w => w.length ≥ 4) with
      _ | ⟨w0, ws⟩
    · exact absurd hw hwords
    · rw [hw, List.isEmpty_cons, if_neg Bool.false_ne_true, List.any_eq_false]
      rintro x hx
      obtain ⟨w, hwmem, rfl⟩ := List.mem_map.mp hx
      rw [hnone w (by rw [hw]; exact hwmem)]
      exact Bool.false_ne_true
  simp only [handle_file_bot_message]
  split
  · exact ⟨rfl, rfl⟩
  · simp only [hmedia]
    split
    · exact ⟨rfl, rfl⟩
    · split
      · exact ⟨rfl, rfl⟩
      · next hq =>
        exfalso
        apply hq
        simp [hseries, hcheck]

/-- Witness for C7 amended: item name "Breaking Bad" (significant word
"Breaking"), unrelated file "randomfile.mkv". -/
theorem c7_unrelated_file_not_forwarded_witness :
    (handle_file_bot_message ⟨[], [], [], 0, "Breaking Bad"⟩
        ⟨1, 100, some ⟨.video, "u1", some "randomfile.mkv", "12.00"⟩,
          false, false, false⟩
        true).forwardAttempted = false
    ∧ (handle_file_bot_message ⟨[], [], [], 0, "Breaking Bad"⟩
        ⟨1, 100, some ⟨.video, "u1", some "randomfile.mkv", "12.00"⟩,
          false, false, false⟩
        true).state.filesReceived = 0 :=
  c7_unrelated_file_not_forwarded
    ⟨[], [], [], 0, "Breaking Bad"⟩
    ⟨1, 100, some ⟨.video, "u1", some "randomfile.mkv", "12.00"⟩,
      false, false, false⟩
    ⟨.video, "u1", some "randomfile.mkv", "12.00"⟩ true
    rfl (by decide) (by decide) (by decide) (by decide)

/-- Helper: with no activity and no stop request, the poll loop starting
at time `st` with `last_activity = 0` runs to time `timeout + 1` and
exits with a timeout, given enough fuel. -/
theorem pollRun_no_activity (timeout : Nat) (stop activity : Nat → Bool)
    (filesAt : Nat → Nat)
    (hact : ∀ t, activity t = false) (hstop : ∀ t, stop t = false) :
    ∀ (fuel st c : Nat), st ≤ timeout + 1 → timeout + 1 - st < fuel →
    ∃ c2, pollRun timeout stop activity filesAt fuel ⟨st, 0, c⟩
      = some (⟨timeout + 1, 0, c2⟩, .timedOut) := by
  intro fuel
  induction fuel with
  | zero => intro st c h1 h2; omega
  | succ n ih =>
    intro st c h1 h2
    simp only [pollRun]
    by_cases hgt : st - 0 > timeout
    · rw [if_pos hgt]
      have hst : st = timeout + 1 := by omega
      subst hst
      exact ⟨c, rfl⟩
    · rw [if_neg hgt, hstop st, if_neg Bool.false_ne_true, hact st,
        if_neg Bool.false_ne_true]
      exact ih (st + 1) (c + filesAt st) (by omega) (by omega)

/-- C8: (a) with an inactivity timeout of `timeout` and no activity or
stop request, the poll loop terminates by a timeout exit at discrete
time `timeout + 1` — within the timeout plus one tick interval; (b)
whenever the stop flag reads true at the current tick, the loop exits
at that very tick, without advancing time. -/
theorem c8_poll_loop_latency :
    (∀ (timeout : Nat) (stop activity : Nat → Bool) (filesAt : Nat → Nat),
      (∀ t, activity t = false) → (∀ t, stop t = false) →
      ∃ c, pollRun timeout stop activity filesAt (timeout + 2) ⟨0, 0, 0⟩
        = some (⟨timeout + 1, 0, c⟩, .timedOut))
    ∧ (∀ (timeout : Nat) (stop activity : Nat → Bool) (filesAt : Nat → Nat)
        (fuel : Nat) (s : PollState),
        stop s.t = true →
        ∃ e, pollRun timeout stop activity filesAt (fuel + 1) s = some (s, e)) := by
  constructor
  · intro timeout stop activity filesAt hact hstop
    exact pollRun_no_activity timeout stop activity filesAt hact hstop
      (timeout + 2) 0 0 (by omega) (by omega)
  · intro timeout stop activity filesAt fuel s hstop
    simp only [pollRun]
    by_cases hgt : s.t - s.lastActivity > timeout
    · rw [if_pos hgt]
      exact ⟨.timedOut, rfl⟩
    · rw [if_neg hgt, hstop, if_pos rfl]
      exact ⟨.stopped, rfl⟩

/-- Witness for C8: timeout 3 exits at time 4; a stop flag first true at
time 2 halts the loop at time 2 without a tick. -/
theorem c8_poll_loop_latency_witness :
    (∃ c, pollRun 3 (fun _ => false) (fun _ => false) (fun _ => 0) 5 ⟨0, 0, 0⟩
        = some (⟨4, 0, c⟩, .timedOut))
    ∧ ∃ e, pollRun 3 (fun t => decide (t ≥ 2)) (fun _ => false) (fun _ => 0) 10
        ⟨2, 1, 0⟩ = some (⟨2, 1, 0⟩, e) := by
  constructor
  · exact c8_poll_loop_latency.1 3 (fun _ => false) (fun _ => false) (fun _ => 0)
      (fun _ => rfl) (fun _ => rfl)
  · exact c8_poll_loop_latency.2 3 (fun t => decide (t ≥ 2)) (fun _ => false)
      (fun _ => 0) 9 ⟨2, 1, 0⟩ (by decide)

/-- Helper: with auto-fetch on, a start link in hand, and a next link
available for every processed post below the maximum, the auto-fetch
loop runs `posts_processed` up to exactly the maximum. -/
theorem autoFetchLoop_all_avail (maxPosts : Nat) (nextAvail : Nat → Bool)
    (hav : ∀ k, k < maxPosts → nextAvail k = true) :
    ∀ (d p : Nat), maxPosts - p = d → p ≤ maxPosts →
    autoFetchLoop true maxPosts nextAvail true p = maxPosts := by
  intro d
  induction d with
  | zero =>
    intro p hd hp
    have hpm : p = maxPosts := by omega
    subst hpm
    unfold autoFetchLoop
    rw [if_neg (by simp), dif_pos (by omega)]
  | succ n ih =>
    intro p hd hp
    have hlt : p < maxPosts := by omega
    unfold autoFetchLoop
    rw [if_neg (by simp), dif_neg (by omega), hav p hlt]
    simp only [Bool.and_self, if_true]
    exact ih (p + 1) (by omega) (by omega)

/-- C9: with auto-chaining enabled, `N` successive next-post links
available, and a configured maximum of `M < N` posts, `_run_scan_task`
processes exactly `M` posts and stops. -/
theorem c9_auto_chain_processes_exactly_max (M N : Nat) (h : M < N) :
    runScanTaskPosts true M (fun k => decide (k < N)) = M := by
  have hav : ∀ k, k < M → (fun k => decide (k < N)) k = true := by
    intro k hk
    simp only [decide_eq_true_eq]
    omega
  exact autoFetchLoop_all_avail M (fun k => decide (k < N)) hav M 0 rfl (by omega)

/-- Witness for C9 at `M = 2`, `N = 3`. -/
theorem c9_auto_chain_processes_exactly_max_witness :
    runScanTaskPosts true 2 (fun k => decide (k < 3)) = 2 :=
  c9_auto_chain_processes_exactly_max 2 3 (by omega)

/-- Helper: across any terminating run of the poll loop, the
files-received counter grows by exactly the files forwarded during the
traversed ticks. -/
theorem pollRun_final_files (timeout : Nat) (stop activity : Nat → Bool)
    (filesAt : Nat → Nat) :
    ∀ (fuel : Nat) (s final : PollState) (e : PollExit),
      pollRun timeout stop activity filesAt fuel s = some (final, e) →
      final.filesReceived + ((List.range s.t).map filesAt).sum
        = s.filesReceived + ((List.range final.t).map filesAt).sum := by
  intro fuel
  induction fuel with
  | zero =>
    intro s final e h
    simp [pollRun] at h
  | succ n ih =>
    intro s final e h
    simp only [pollRun] at h
    by_cases h1 : s.t - s.lastActivity > timeout
    · rw [if_pos h1] at h
      obtain ⟨rfl, rfl⟩ : s = final ∧ PollExit.timedOut = e := by
        simpa using h
      rfl
    · rw [if_neg h1] at h
      by_cases h2 : stop s.t = true
      · rw [if_pos h2] at h
        obtain ⟨rfl, rfl⟩ : s = final ∧ PollExit.stopped = e := by
          simpa using h
        rfl
      · rw [if_neg h2] at h
        have hrec := ih _ final e h
        rw [List.range_succ, List.map_append, List.sum_append] at hrec
        simp only [List.map_cons, List.map_nil, List.sum_cons, List.sum_nil] at hrec
        set A := ((List.range s.t).map filesAt).sum with hA
        set B := ((List.range final.t).map filesAt).sum with hB
        omega

/-- C10: every invocation of `wait_and_collect_files` is independent of
the counter value the run held before entry (the entry assignment
resets it to zero), and upon exit the counter equals exactly the total
number of files forwarded during this invocation's ticks — not a
cumulative run total. -/
theorem c10_files_counter_session_local (timeout : Nat)
    (stop activity : Nat → Bool) (filesAt : Nat → Nat)
    (fuel prev1 prev2 : Nat) :
    (wait_and_collect_files timeout stop activity filesAt fuel prev1
      = wait_and_collect_files timeout stop activity filesAt fuel prev2)
    ∧ (wait_and_collect_files timeout stop activity filesAt fuel prev1
        = pollRun timeout stop activity filesAt fuel ⟨0, 0, 0⟩)
    ∧ ∀ (final : PollState) (e : PollExit),
        wait_and_collect_files timeout stop activity filesAt fuel prev1
          = some (final, e) →
        final.filesReceived = ((List.range final.t).map filesAt).sum := by
  refine ⟨rfl, rfl, ?_⟩
  intro final e h
  simp only [wait_and_collect_files] at h
  have hrec := pollRun_final_files timeout stop activity filesAt fuel ⟨0, 0, 0⟩ final e h
  simpa using hrec

/-- Witness for C10: a loop with two files per tick and timeout 1,
entered with a stale counter of 7, exits at time 2 with counter 4 —
the files of this session only. -/
theorem c10_files_counter_session_local_witness :
    (wait_and_collect_files 1 (fun _ => false) (fun _ => false) (fun _ => 2) 4 7
      = wait_and_collect_files 1 (fun _ => false) (fun _ => false) (fun _ => 2) 4 0)
    ∧ (⟨2, 0, 4⟩ : PollState).filesReceived
        = ((List.range (⟨2, 0, 4⟩ : PollState).t).map (fun _ => 2)).sum :=
  ⟨(c10_files_counter_session_local 1 (fun _ => false) (fun _ => false)
      (fun _ => 2) 4 7 0).1,
   (c10_files_counter_session_local 1 (fun _ => false) (fun _ => false)
      (fun _ => 2) 4 7 0).2.2 ⟨2, 0, 4⟩ .timedOut rfl⟩

end Fetcher
